import Mathlib

/-!
Shallow embedding of the Quantum Roulette engine (`src/game_logic.py`):
`QuantumBulletSystem`, `Player` and `QuantumBuckshotGame`, together with
theorems settling the specification claims.

Modelling conventions:
* Python floats are modelled exactly: complex amplitudes live in the ring
  `ℚ[i, √2]` (a `(re, im)` pair of `(a, b)` pairs, each pair denoting
  `a + b·√2`), which contains every matrix entry of the gates the game uses
  (X, Y, Z, H, Rx(π/2), Ry(π/2), Rz(π/2), CNOT).
* The qiskit circuit is modelled as its list of gate applications; the
  statevector is recomputed from that gate history starting from |0…0⟩,
  exactly as the spec's data model prescribes ("conceptually recomputed from
  the full gate history"; measured positions are overridden by their stored
  outcomes in every probability query, mirroring the code).
* Born-rule sampling (the single-shot `AerSimulator` run) is the only source
  of nondeterminism; it is modelled by passing the sampled outcome as an
  explicit argument to `measure_bullet` / `fire_next_bullet`.  Concrete runs
  used in counterexamples only ever sample outcomes whose marginal
  probability is 1, which is checked as part of the corresponding theorem.
* Python dicts (`entanglements`, `_collapsed_states`) are modelled as
  association lists with replace-on-insert and remove-all-on-delete.
* Python lists indexed in range are modelled by `nthD` / `setNth`.
-/

set_option maxRecDepth 10000

namespace QuantumRoulette

/-! ### Exact arithmetic: ℚ[√2] and ℚ[i, √2]

Rationals are represented as unreduced fractions `(num, den) : Int × Nat`
(every value built here has a positive denominator), so that all arithmetic
is plain integer arithmetic and concrete probability computations evaluate
inside the kernel.  `qEq` / `qLe` / `qLt` are the semantic (value-level)
comparisons, by cross-multiplication. -/

/-- An unreduced fraction `num / den`. -/
abbrev Q := Int × Nat

def qAdd (x y : Q) : Q := (x.1 * (y.2 : Int) + y.1 * (x.2 : Int), x.2 * y.2)

def qSub (x y : Q) : Q := (x.1 * (y.2 : Int) - y.1 * (x.2 : Int), x.2 * y.2)

def qMul (x y : Q) : Q := (x.1 * y.1, x.2 * y.2)

def qZero : Q := (0, 1)

def qOne : Q := (1, 1)

def qNegOne : Q := (-1, 1)

def qHalf : Q := (1, 2)

def qNegHalf : Q := (-1, 2)

def qTwo : Q := (2, 1)

/-- Value equality `x = y` of fractions. -/
def qEq (x y : Q) : Bool := x.1 * (y.2 : Int) == y.1 * (x.2 : Int)

/-- Value order `x ≤ y` (valid because denominators are positive). -/
def qLe (x y : Q) : Bool := decide (x.1 * (y.2 : Int) ≤ y.1 * (x.2 : Int))

/-- Value order `x < y` (valid because denominators are positive). -/
def qLt (x y : Q) : Bool := decide (x.1 * (y.2 : Int) < y.1 * (x.2 : Int))

/-- A value `a + b·√2`. -/
abbrev Rt2 := Q × Q

def rt2Add (x y : Rt2) : Rt2 := (qAdd x.1 y.1, qAdd x.2 y.2)

def rt2Sub (x y : Rt2) : Rt2 := (qSub x.1 y.1, qSub x.2 y.2)

def rt2Mul (x y : Rt2) : Rt2 :=
  (qAdd (qMul x.1 y.1) (qMul qTwo (qMul x.2 y.2)),
   qAdd (qMul x.1 y.2) (qMul x.2 y.1))

def rt2Zero : Rt2 := (qZero, qZero)

def rt2One : Rt2 := (qOne, qZero)

/-- Value equality in `ℚ[√2]` (componentwise, since `√2` is irrational). -/
def rt2Beq (x y : Rt2) : Bool := qEq x.1 y.1 && qEq x.2 y.2

/-- Value equality of a `(P(blank), P(live))` pair. -/
def probBeq (x y : Rt2 × Rt2) : Bool := rt2Beq x.1 y.1 && rt2Beq x.2 y.2

/-- Decides `a + b·√2 > 0` using only integer arithmetic. -/
def rt2IsPos (x : Rt2) : Bool :=
  if qLe qZero x.1 then
    if qLe qZero x.2 then qLt qZero x.1 || qLt qZero x.2
    else qLt (qMul qTwo (qMul x.2 x.2)) (qMul x.1 x.1)
  else
    if qLe qZero x.2 then qLt (qMul x.1 x.1) (qMul qTwo (qMul x.2 x.2))
    else false

/-- `x > t` for a rational threshold `t` (models the float comparison). -/
def rt2GtThr (x : Rt2) (t : Q) : Bool := rt2IsPos (rt2Sub x (t, qZero))

/-- `x < t` for a rational threshold `t` (models the float comparison). -/
def rt2LtThr (x : Rt2) (t : Q) : Bool := rt2IsPos (rt2Sub (t, qZero) x)

/-- A complex amplitude: `(re, im)` with both parts in `ℚ[√2]`. -/
abbrev Amp := Rt2 × Rt2

def ampAdd (u v : Amp) : Amp := (rt2Add u.1 v.1, rt2Add u.2 v.2)

def ampSub (u v : Amp) : Amp := (rt2Sub u.1 v.1, rt2Sub u.2 v.2)

def ampNeg (u : Amp) : Amp := (rt2Sub rt2Zero u.1, rt2Sub rt2Zero u.2)

def ampMul (u v : Amp) : Amp :=
  (rt2Sub (rt2Mul u.1 v.1) (rt2Mul u.2 v.2),
   rt2Add (rt2Mul u.1 v.2) (rt2Mul u.2 v.1))

def ampZero : Amp := (rt2Zero, rt2Zero)

def ampOne : Amp := (rt2One, rt2Zero)

def ampI : Amp := (rt2Zero, rt2One)

def ampNegI : Amp := (rt2Zero, (qNegOne, qZero))

/-- `1/√2 = (√2)/2`. -/
def invSqrt2 : Amp := ((qZero, qHalf), rt2Zero)

/-- `e^{iπ/4} = (1 + i)/√2`. -/
def expPiI4 : Amp := ((qZero, qHalf), (qZero, qHalf))

/-- `e^{-iπ/4} = (1 - i)/√2`. -/
def expNegPiI4 : Amp := ((qZero, qHalf), (qZero, qNegHalf))

/-- Squared magnitude `|z|²` (a value in `ℚ[√2]`): models `abs(amplitude) ** 2`. -/
def normSq (z : Amp) : Rt2 := rt2Add (rt2Mul z.1 z.1) (rt2Mul z.2 z.2)

/-! ### In-range list indexing and assignment (Python `l[i]`, `l[i] = v`) -/

def nthD {α : Type} : List α → Nat → α → α
  | [], _, d => d
  | a :: _, 0, _ => a
  | _ :: l, i + 1, d => nthD l i d

def setNth {α : Type} : List α → Nat → α → List α
  | [], _, _ => []
  | _ :: l, 0, b => b :: l
  | a :: l, i + 1, b => a :: setNth l i b

theorem length_setNth {α : Type} (l : List α) (i : Nat) (b : α) :
    (setNth l i b).length = l.length := by
  induction l generalizing i with
  | nil => rfl
  | cons a l ih =>
    cases i with
    | zero => rfl
    | succ j => simpa [setNth] using ih j

theorem nthD_setNth_self {α : Type} (l : List α) (i : Nat) (b d : α)
    (h : i < l.length) : nthD (setNth l i b) i d = b := by
  induction l generalizing i with
  | nil => simp at h
  | cons a l ih =>
    cases i with
    | zero => rfl
    | succ j =>
      simp only [List.length_cons] at h
      exact ih j (by omega)

theorem nthD_setNth_ne {α : Type} (l : List α) (i j : Nat) (b d : α)
    (h : i ≠ j) : nthD (setNth l i b) j d = nthD l j d := by
  induction l generalizing i j with
  | nil => rfl
  | cons a l ih =>
    cases i with
    | zero =>
      cases j with
      | zero => exact absurd rfl h
      | succ k => rfl
    | succ i' =>
      cases j with
      | zero => rfl
      | succ k => exact ih i' k (by omega)

/-! ### Python dicts with `Nat` keys and values (association lists) -/

def dlookup (k : Nat) : List (Nat × Nat) → Option Nat
  | [] => none
  | p :: l => if p.1 = k then some p.2 else dlookup k l

def dremove (k : Nat) : List (Nat × Nat) → List (Nat × Nat)
  | [] => []
  | p :: l => if p.1 = k then dremove k l else p :: dremove k l

/-- `d[k] = v` for a Python dict. -/
def dinsert (k v : Nat) (l : List (Nat × Nat)) : List (Nat × Nat) :=
  (k, v) :: dremove k l

theorem dlookup_dremove_self (k : Nat) (l : List (Nat × Nat)) :
    dlookup k (dremove k l) = none := by
  induction l with
  | nil => rfl
  | cons p l ih =>
    by_cases h : p.1 = k <;> simp [dremove, dlookup, h, ih]

theorem dlookup_dremove_ne (k j : Nat) (l : List (Nat × Nat)) (h : j ≠ k) :
    dlookup j (dremove k l) = dlookup j l := by
  induction l with
  | nil => rfl
  | cons p l ih =>
    by_cases hk : p.1 = k
    · have hpj : ¬ p.1 = j := by omega
      rw [dremove, if_pos hk, ih, dlookup, if_neg hpj]
    · rw [dremove, if_neg hk, dlookup, dlookup]
      by_cases hj : p.1 = j
      · rw [if_pos hj, if_pos hj]
      · rw [if_neg hj, if_neg hj, ih]

theorem dlookup_dinsert_self (k v : Nat) (l : List (Nat × Nat)) :
    dlookup k (dinsert k v l) = some v := by
  simp [dinsert, dlookup]

theorem dlookup_dinsert_ne (k v j : Nat) (l : List (Nat × Nat)) (h : j ≠ k) :
    dlookup j (dinsert k v l) = dlookup j l := by
  have : ¬ k = j := by omega
  simp [dinsert, dlookup, this, dlookup_dremove_ne k j l h]

/-! ### The pointer-advance loop of `measure_bullet` -/

/-- The loop `while current < n and measured[current]: current += 1`, with
explicit fuel (structural recursion, so concrete runs evaluate).  Each
iteration needs `i < n`, so `n - i` fuel always suffices. -/
def advanceLoop (m : List Bool) (n : Nat) : Nat → Nat → Nat
  | 0, i => i
  | fuel + 1, i =>
    if i < n ∧ nthD m i false = true then advanceLoop m n fuel (i + 1) else i

/-- `while current < n and measured[current]: current += 1`. -/
def advanceFrom (m : List Bool) (n : Nat) (i : Nat) : Nat :=
  advanceLoop m n (n - i) i

theorem advanceLoop_ge (m : List Bool) (n : Nat) :
    ∀ fuel i, i ≤ advanceLoop m n fuel i := by
  intro fuel
  induction fuel with
  | zero => intro i; exact Nat.le_refl i
  | succ f ih =>
    intro i
    unfold advanceLoop
    split
    · have := ih (i + 1)
      omega
    · exact Nat.le_refl i

theorem advanceLoop_stops (m : List Bool) (n : Nat) :
    ∀ fuel i, n ≤ fuel + i →
      n ≤ advanceLoop m n fuel i ∨
      nthD m (advanceLoop m n fuel i) false = false := by
  intro fuel
  induction fuel with
  | zero =>
    intro i hf
    left
    simpa [advanceLoop] using hf
  | succ f ih =>
    intro i hf
    unfold advanceLoop
    split
    · exact ih (i + 1) (by omega)
    · rename_i h
      by_cases hi : i < n
      · right
        cases hb : nthD m i false
        · rfl
        · exact absurd ⟨hi, hb⟩ h
      · left
        omega

theorem advanceLoop_skipped (m : List Bool) (n : Nat) :
    ∀ fuel i j, i ≤ j → j < advanceLoop m n fuel i → nthD m j false = true := by
  intro fuel
  induction fuel with
  | zero =>
    intro i j hij hj
    simp only [advanceLoop] at hj
    omega
  | succ f ih =>
    intro i j hij hj
    unfold advanceLoop at hj
    split at hj
    · rename_i h
      by_cases hji : j = i
      · rw [hji]
        exact h.2
      · exact ih (i + 1) j (by omega) hj
    · omega

theorem advanceFrom_ge (m : List Bool) (n i : Nat) : i ≤ advanceFrom m n i :=
  advanceLoop_ge m n (n - i) i

theorem advanceFrom_stops (m : List Bool) (n i : Nat) :
    n ≤ advanceFrom m n i ∨ nthD m (advanceFrom m n i) false = false :=
  advanceLoop_stops m n (n - i) i (by omega)

theorem advanceFrom_skipped (m : List Bool) (n i : Nat) :
    ∀ j, i ≤ j → j < advanceFrom m n i → nthD m j false = true :=
  fun j hij hj => advanceLoop_skipped m n (n - i) i j hij hj

/-! ### Gate kinds (`GateType`), `Gate`, `Player` -/

/-- `GateType` from `game_logic.py`. -/
inductive GateType where
  | X
  | Y
  | Z
  | H
  | RX
  | RY
  | RZ
  | CNOT
deriving DecidableEq

/-- `GateType.is_two_qubit`. -/
def GateType.is_two_qubit : GateType → Bool
  | .CNOT => true
  | _ => false

/-- A gate owned by a player (`Gate` dataclass). -/
structure Gate where
  gate_type : GateType
  used : Bool := false
deriving DecidableEq

/-- The `Player` dataclass.  `lives` is a `Nat`, matching
`max(0, lives - 1)` in `take_damage` via truncated subtraction.
`applied_gates_history` stores `(gate_type, target1, target2)` records with
`target2 = -1` the single-qubit sentinel, hence an `Int`. -/
structure Player where
  name : String
  player_id : Nat
  lives : Nat
  gates : List Gate := []
  peek_available : Bool := true
  applied_gates_history : List (GateType × Nat × Int) := []
deriving DecidableEq

def Player.is_alive (p : Player) : Bool := decide (0 < p.lives)

/-- `take_damage`: returns `(is_alive, updated player)`. -/
def Player.take_damage (p : Player) : Bool × Player :=
  let p2 : Player := { p with lives := p.lives - 1 }
  (p2.is_alive, p2)

def Player.get_available_gates (p : Player) : List Gate :=
  p.gates.filter (fun g => !g.used)

def Player.has_gate (p : Player) (gt : GateType) : Bool :=
  p.gates.any (fun g => g.gate_type == gt && !g.used)

/-- Marks the first unused gate of the given kind used
(`use_gate`); returns `(found, updated gate list)`. -/
def useGateList : List Gate → GateType → Bool × List Gate
  | [], _ => (false, [])
  | g :: rest, gt =>
    if g.gate_type == gt && !g.used then
      (true, { g with used := true } :: rest)
    else
      let r := useGateList rest gt
      (r.1, g :: r.2)

def Player.use_gate (p : Player) (gt : GateType) : Bool × Player :=
  let r := useGateList p.gates gt
  (r.1, { p with gates := r.2 })

def Player.reset_for_new_round (p : Player) : Player :=
  { p with gates := [], peek_available := true, applied_gates_history := [] }

def Player.set_gates (p : Player) (gts : List GateType) : Player :=
  { p with gates := gts.map (fun gt => { gate_type := gt, used := false }) }

def Player.record_gate_application (p : Player) (gt : GateType) (t1 : Nat)
    (t2 : Int) : Player :=
  { p with applied_gates_history := p.applied_gates_history ++ [(gt, t1, t2)] }

/-! ### The qiskit circuit and its statevector semantics

The circuit is its list of recorded gate applications (`circuit.x(q)`,
`circuit.cx(c, t)`, ...).  The statevector is the fold of the standard
unitary action of each gate over the basis-state amplitudes, starting from
`|0…0⟩`; a single-qubit unitary `[[m00, m01], [m10, m11]]` at qubit `q` sends
the amplitude at basis index `i` to `m00·ψ(i) + m01·ψ(i ⊕ 2^q)` when bit `q`
of `i` is clear, and to `m10·ψ(i ⊕ 2^q) + m11·ψ(i)` when it is set; pure
permutation gates (X, CNOT) are written directly as the permutation. -/

inductive CircuitOp where
  | x (q : Nat)
  | y (q : Nat)
  | z (q : Nat)
  | h (q : Nat)
  | rx (q : Nat)
  | ry (q : Nat)
  | rz (q : Nat)
  | cx (c t : Nat)
deriving DecidableEq

def applyOp : CircuitOp → (Nat → Amp) → Nat → Amp
  | .x q, ψ => fun i => ψ (i ^^^ (1 <<< q))
  | .y q, ψ => fun i =>
      if i.testBit q then ampMul ampI (ψ (i ^^^ (1 <<< q)))
      else ampMul ampNegI (ψ (i ^^^ (1 <<< q)))
  | .z q, ψ => fun i => if i.testBit q then ampNeg (ψ i) else ψ i
  | .h q, ψ => fun i =>
      if i.testBit q then ampMul invSqrt2 (ampSub (ψ (i ^^^ (1 <<< q))) (ψ i))
      else ampMul invSqrt2 (ampAdd (ψ i) (ψ (i ^^^ (1 <<< q))))
  | .rx q, ψ => fun i =>
      ampMul invSqrt2 (ampAdd (ψ i) (ampMul ampNegI (ψ (i ^^^ (1 <<< q)))))
  | .ry q, ψ => fun i =>
      if i.testBit q then ampMul invSqrt2 (ampAdd (ψ (i ^^^ (1 <<< q))) (ψ i))
      else ampMul invSqrt2 (ampSub (ψ i) (ψ (i ^^^ (1 <<< q))))
  | .rz q, ψ => fun i =>
      if i.testBit q then ampMul expPiI4 (ψ i) else ampMul expNegPiI4 (ψ i)
  | .cx c t, ψ => fun i => if i.testBit c then ψ (i ^^^ (1 <<< t)) else ψ i

/-- The all-blank basis state `|0…0⟩`. -/
def initAmp : Nat → Amp := fun i => if i = 0 then ampOne else ampZero

/-- The statevector of a recorded circuit (`save_statevector` on the gate
history). -/
def simulate (c : List CircuitOp) : Nat → Amp :=
  c.foldl (fun ψ op => applyOp op ψ) initAmp

/-! ### `QuantumBulletSystem` -/

/-- State of `QuantumBulletSystem`.  `_collapsed_states` (the
deferred-collapse cache) is a plain field starting empty; the Python code
creates the attribute lazily and guards every access with `hasattr`, which
has the same meaning. -/
structure QuantumBulletSystem where
  num_bullets : Nat
  circuit : List CircuitOp
  entanglements : List (Nat × Nat)
  measured : List Bool
  measurement_results : List (Option Nat)
  initial_live_positions : List Nat
  current_bullet_index : Nat
  collapsed_states : List (Nat × Nat)
deriving DecidableEq

namespace QuantumBulletSystem

/-- `__init__(num_bullets)`. -/
def mkSystem (n : Nat) : QuantumBulletSystem where
  num_bullets := n
  circuit := []
  entanglements := []
  measured := List.replicate n false
  measurement_results := List.replicate n none
  initial_live_positions := []
  current_bullet_index := 0
  collapsed_states := []

/-- Python `sorted` (ascending, stable). -/
def pySorted (l : List Nat) : List Nat := l.insertionSort (· ≤ ·)

/-- `initialize_bullets(live_positions)`: resets all bookkeeping, stores the
sorted input list, and flips exactly the in-range listed positions to live
(the loop `for pos in live_positions: if 0 <= pos < n: circuit.x(pos)`;
positions are naturals here, so the `0 <= pos` guard is automatic). -/
def initialize_bullets (s : QuantumBulletSystem) (live_positions : List Nat) :
    QuantumBulletSystem where
  num_bullets := s.num_bullets
  circuit := (live_positions.filter (fun pos => decide (pos < s.num_bullets))).map .x
  entanglements := []
  measured := List.replicate s.num_bullets false
  measurement_results := List.replicate s.num_bullets none
  initial_live_positions := pySorted live_positions
  current_bullet_index := 0
  collapsed_states := []

/-- `_break_entanglement(qubit)`. -/
def break_entanglement (qubit : Nat) (e : List (Nat × Nat)) :
    List (Nat × Nat) :=
  match dlookup qubit e with
  | none => e
  | some partner =>
    let e1 := dremove qubit e
    if (dlookup partner e1).isSome then dremove partner e1 else e1

/-- `apply_gate(gate_type, target1, target2=-1)`: returns
`(success, new state)`.  `target1` is a natural (the source's `target1 < 0`
check is subsumed); `target2` keeps the `-1` sentinel and is an `Int`. -/
def apply_gate (s : QuantumBulletSystem) (gate_type : GateType) (target1 : Nat)
    (target2 : Int) : Bool × QuantumBulletSystem :=
  if s.num_bullets ≤ target1 then (false, s)
  else if nthD s.measured target1 false then (false, s)
  else if gate_type.is_two_qubit &&
      (target2 < 0 || (s.num_bullets : Int) ≤ target2) then (false, s)
  else if gate_type.is_two_qubit && nthD s.measured target2.toNat false then
    (false, s)
  else if gate_type.is_two_qubit && (target1 : Int) == target2 then (false, s)
  else
    match gate_type with
    | .X => (true, { s with circuit := s.circuit ++ [.x target1] })
    | .Y => (true, { s with circuit := s.circuit ++ [.y target1] })
    | .Z => (true, { s with circuit := s.circuit ++ [.z target1] })
    | .H => (true, { s with circuit := s.circuit ++ [.h target1] })
    | .RX => (true, { s with circuit := s.circuit ++ [.rx target1] })
    | .RY => (true, { s with circuit := s.circuit ++ [.ry target1] })
    | .RZ => (true, { s with circuit := s.circuit ++ [.rz target1] })
    | .CNOT =>
      let t2 := target2.toNat
      let ents := break_entanglement t2 s.entanglements
      (true, { s with
        circuit := s.circuit ++ [.cx target1 t2],
        entanglements := dinsert t2 target1 (dinsert target1 t2 ents) })

def get_current_bullet (s : QuantumBulletSystem) : Nat :=
  s.current_bullet_index

/-- `measure_bullet(qubit)`: `sample` is the Born-rule outcome drawn by the
single-shot simulator run, used only on the fresh-sampling path.  Returns
`(outcome, new state)`.  The `circuit.measure` record appended by the code is
not tracked: probability queries rebuild the statevector from the gate
history and override measured positions with their stored outcomes, exactly
as `get_probabilities` does after `remove_final_measurements`. -/
def measure_bullet (s : QuantumBulletSystem) (sample : Nat) (qubit : Nat) :
    Nat × QuantumBulletSystem :=
  if nthD s.measured qubit false then
    ((nthD s.measurement_results qubit none).getD 0, s)
  else
    match dlookup qubit s.collapsed_states with
    | some result_value =>
      let measured2 := setNth s.measured qubit true
      (result_value, { s with
        measured := measured2,
        measurement_results := setNth s.measurement_results qubit (some result_value),
        collapsed_states := dremove qubit s.collapsed_states,
        current_bullet_index :=
          advanceFrom measured2 s.num_bullets (s.current_bullet_index + 1) })
    | none =>
      let partner? := dlookup qubit s.entanglements
      let measured2 := setNth s.measured qubit true
      let propagate :=
        match partner? with
        | some partner =>
          if nthD measured2 partner false then
            (s.collapsed_states, s.entanglements)
          else
            (dinsert partner sample s.collapsed_states,
             break_entanglement qubit s.entanglements)
        | none => (s.collapsed_states, s.entanglements)
      (sample, { s with
        measured := measured2,
        measurement_results := setNth s.measurement_results qubit (some sample),
        collapsed_states := propagate.1,
        entanglements := propagate.2,
        current_bullet_index :=
          advanceFrom measured2 s.num_bullets (s.current_bullet_index + 1) })

/-- `fire_next_bullet()`: returns `((position, outcome), new state)`, with
the `(-1, -1)` sentinel when the queue is exhausted. -/
def fire_next_bullet (s : QuantumBulletSystem) (sample : Nat) :
    (Int × Int) × QuantumBulletSystem :=
  let bullet_idx := s.current_bullet_index
  if s.num_bullets ≤ bullet_idx then ((-1, -1), s)
  else
    let r := s.measure_bullet sample bullet_idx
    ((Int.ofNat bullet_idx, Int.ofNat r.1), r.2)

/-- `get_probabilities()`: per position `(P(blank), P(live))`, each an exact
value in `ℚ[√2]`. -/
def get_probabilities (s : QuantumBulletSystem) : List (Rt2 × Rt2) :=
  let ψ := simulate s.circuit
  (List.range s.num_bullets).map (fun qubit =>
    if nthD s.measured qubit false then
      if (nthD s.measurement_results qubit none).getD 0 == 0 then
        (rt2One, rt2Zero)
      else (rt2Zero, rt2One)
    else
      match dlookup qubit s.collapsed_states with
      | some v => if v == 0 then (rt2One, rt2Zero) else (rt2Zero, rt2One)
      | none =>
        (List.range (2 ^ s.num_bullets)).foldl
          (fun acc i =>
            let prob := normSq (ψ i)
            if (i >>> qubit) &&& 1 == 0 then (rt2Add acc.1 prob, acc.2)
            else (acc.1, rt2Add acc.2 prob))
          (rt2Zero, rt2Zero))

/-- `get_bullet_state_category(qubit)` (the `classify` operation). -/
def get_bullet_state_category (s : QuantumBulletSystem) (qubit : Nat) :
    String :=
  if nthD s.measured qubit false then
    if (nthD s.measurement_results qubit none).getD 0 == 1 then "fired_live"
    else "fired_blank"
  else
    match dlookup qubit s.collapsed_states with
    | some v => if v == 1 then "live" else "blank"
    | none =>
      let probs := s.get_probabilities
      let p_live := (nthD probs qubit (rt2Zero, rt2Zero)).2
      let is_entangled := (dlookup qubit s.entanglements).isSome
      if rt2GtThr p_live (99, 100) then
        if is_entangled then "entangled" else "live"
      else if rt2LtThr p_live (1, 100) then
        if is_entangled then "entangled" else "blank"
      else
        if is_entangled then "entangled" else "superposition"

def get_unmeasured_bullets (s : QuantumBulletSystem) : List Nat :=
  (List.range s.num_bullets).filter (fun i => !nthD s.measured i false)

def all_measured (s : QuantumBulletSystem) : Bool :=
  s.measured.all (fun b => b)

end QuantumBulletSystem

/-! ### `QuantumBuckshotGame`

The Python object graph aliases `current_player` / `winner` to one of the two
`Player` objects; they are embedded as player ids (1 or 2), with `getPlayer`
resolving an id to the corresponding player field.  Event callbacks
(`on_state_change`, …) carry no core state and are not registered here, so
they are omitted.  `start_new_round` draws `live_positions` with
`random.sample`; the drawn list is passed in as an explicit argument. -/

/-- The `shoot` result dict. -/
structure ShotResult where
  success : Bool
  message : String := ""
  shooter : String := ""
  shooter_id : Nat := 0
  target : String := ""
  target_id : Nat := 0
  bullet_index : Int := 0
  is_live : Bool := false
  shot_self : Bool := false
  extra_turn : Bool := false
  damage_dealt : Bool := false
  target_lives_remaining : Nat := 0
  round_over : Bool := false
  game_over : Bool := false
  winner : Option String := none
deriving DecidableEq

structure QuantumBuckshotGame where
  num_bullets : Nat
  num_gates : Nat
  initial_lives : Nat
  player1 : Player
  player2 : Player
  current_player : Nat
  bullet_system : Option QuantumBulletSystem
  round_number : Nat
  game_over : Bool
  winner : Option Nat
  phase : String
  gate_selection_player : Nat
  gate_applied_this_turn : Bool
deriving DecidableEq

namespace QuantumBuckshotGame

/-- `__init__(num_bullets=6, num_gates=3, num_lives=3)`. -/
def mkGame (num_bullets num_gates num_lives : Nat) : QuantumBuckshotGame where
  num_bullets := num_bullets
  num_gates := num_gates
  initial_lives := num_lives
  player1 := { name := "Player 1", player_id := 1, lives := num_lives }
  player2 := { name := "Player 2", player_id := 2, lives := num_lives }
  current_player := 1
  bullet_system := none
  round_number := 0
  game_over := false
  winner := none
  phase := "gate_selection"
  gate_selection_player := 1
  gate_applied_this_turn := false

/-- Resolves a player id to the player it references
(`player1 if player_id == 1 else player2`). -/
def getPlayer (g : QuantumBuckshotGame) (i : Nat) : Player :=
  if i = 1 then g.player1 else g.player2

/-- Writes back a player through its id. -/
def setPlayer (g : QuantumBuckshotGame) (i : Nat) (p : Player) :
    QuantumBuckshotGame :=
  if i = 1 then { g with player1 := p } else { g with player2 := p }

/-- `get_opponent`, on ids. -/
def oppId (i : Nat) : Nat := if i = 1 then 2 else 1

/-- `start_new_round()`; `live_positions` is the `random.sample` draw. -/
def start_new_round (g : QuantumBuckshotGame) (live_positions : List Nat) :
    QuantumBuckshotGame :=
  { g with
    round_number := g.round_number + 1,
    phase := "gate_selection",
    gate_selection_player := 1,
    gate_applied_this_turn := false,
    player1 := g.player1.reset_for_new_round,
    player2 := g.player2.reset_for_new_round,
    bullet_system :=
      some ((QuantumBulletSystem.mkSystem g.num_bullets).initialize_bullets
        live_positions) }

/-- `submit_gate_selection(player_id, selected_gates)`: returns
`(success, new state)`. -/
def submit_gate_selection (g : QuantumBuckshotGame) (player_id : Nat)
    (selected_gates : List GateType) : Bool × QuantumBuckshotGame :=
  if selected_gates.length ≠ g.num_gates then (false, g)
  else
    let g1 :=
      if player_id = 1 then
        { g with player1 := g.player1.set_gates selected_gates }
      else
        { g with player2 := g.player2.set_gates selected_gates }
    if player_id = 1 then (true, { g1 with gate_selection_player := 2 })
    else (true, { g1 with phase := "show_bullets" })

/-- `start_playing_phase()`. -/
def start_playing_phase (g : QuantumBuckshotGame) : QuantumBuckshotGame :=
  { g with phase := "playing", gate_applied_this_turn := false,
           current_player := 1 }

/-- `apply_gate(gate_type, target1, target2=-1)`: returns
`((success, message), new state)`.  The unreachable `bullet_system = None`
case (Python would raise) is totalised as the generic failure. -/
def apply_gate (g : QuantumBuckshotGame) (gate_type : GateType) (target1 : Nat)
    (target2 : Int) : (Bool × String) × QuantumBuckshotGame :=
  if g.phase ≠ "playing" then
    ((false, "Cannot apply gates outside playing phase"), g)
  else if g.game_over then ((false, "Game is over"), g)
  else if g.gate_applied_this_turn then
    ((false, "You can only apply one gate per turn"), g)
  else
    let player := g.getPlayer g.current_player
    if ¬ player.has_gate gate_type then
      ((false, "You don't have that gate available"), g)
    else
      match g.bullet_system with
      | none => ((false, "Failed to apply gate (invalid target?)"), g)
      | some bs =>
        let r := bs.apply_gate gate_type target1 target2
        if r.1 then
          let player2 := (player.use_gate gate_type).2
          let player3 := player2.record_gate_application gate_type target1 target2
          ((true, "Applied gate"),
           { g.setPlayer g.current_player player3 with
             bullet_system := some r.2, gate_applied_this_turn := true })
        else
          ((false, "Failed to apply gate (invalid target?)"),
           { g with bullet_system := some r.2 })

/-- `shoot(shoot_self)`: `sample` is the Born-rule outcome used if the fired
position is freshly sampled. -/
def shoot (g : QuantumBuckshotGame) (shoot_self : Bool) (sample : Nat) :
    ShotResult × QuantumBuckshotGame :=
  if g.phase ≠ "playing" then
    ({ success := false, message := "Cannot shoot outside playing phase" }, g)
  else if g.game_over then
    ({ success := false, message := "Game is over" }, g)
  else
    match g.bullet_system with
    | none => ({ success := false, message := "No more bullets to fire" }, g)
    | some bs =>
      let shooterId := g.current_player
      let shooter := g.getPlayer shooterId
      let targetId := if shoot_self then shooterId else oppId shooterId
      let target := g.getPlayer targetId
      let fired := bs.fire_next_bullet sample
      let bullet_idx := fired.1.1
      let outcome := fired.1.2
      if bullet_idx < 0 then
        ({ success := false, message := "No more bullets to fire" },
         { g with bullet_system := some fired.2 })
      else
        let is_live := outcome == 1
        let base : ShotResult :=
          { success := true, shooter := shooter.name, shooter_id := shooterId,
            target := target.name, target_id := targetId,
            bullet_index := bullet_idx, is_live := is_live,
            shot_self := shoot_self,
            target_lives_remaining := target.lives }
        let g1 := { g with bullet_system := some fired.2 }
        let resolved : ShotResult × QuantumBuckshotGame :=
          if is_live then
            let dmg := target.take_damage
            let g2 := g1.setPlayer targetId dmg.2
            if ¬ dmg.1 then
              let winnerId := oppId targetId
              ({ base with
                   damage_dealt := true,
                   target_lives_remaining := dmg.2.lives,
                   game_over := true,
                   winner := some (g2.getPlayer winnerId).name },
               { g2 with game_over := true, winner := some winnerId })
            else
              ({ base with
                   damage_dealt := true,
                   target_lives_remaining := dmg.2.lives },
               { g2 with
                   current_player := oppId shooterId,
                   gate_applied_this_turn := false })
          else
            if shoot_self then
              ({ base with extra_turn := true },
               { g1 with gate_applied_this_turn := false })
            else
              (base,
               { g1 with
                   current_player := oppId shooterId,
                   gate_applied_this_turn := false })
        let round_over := fired.2.all_measured && !resolved.2.game_over
        ({ resolved.1 with round_over := round_over }, resolved.2)

/-- `use_peek()`: returns `((success, opponent's unused gates), new state)`. -/
def use_peek (g : QuantumBuckshotGame) :
    (Bool × List Gate) × QuantumBuckshotGame :=
  if g.phase ≠ "playing" then ((false, []), g)
  else
    let player := g.getPlayer g.current_player
    let opponent := g.getPlayer (oppId g.current_player)
    if ¬ player.peek_available then ((false, []), g)
    else
      (((true : Bool), opponent.get_available_gates),
       g.setPlayer g.current_player { player with peek_available := false })

/-- `get_visible_bullet_states(for_player_id)`. -/
def get_visible_bullet_states (g : QuantumBuckshotGame) (for_player_id : Nat) :
    List String :=
  match g.bullet_system with
  | none => []
  | some bs =>
    let player := if for_player_id = 1 then g.player1 else g.player2
    (List.range g.num_bullets).map (fun i =>
      if nthD bs.measured i false then
        if (nthD bs.measurement_results i none).getD 0 == 1 then "fired_live"
        else "fired_blank"
      else
        let player_modified := player.applied_gates_history.any
          (fun rec => rec.2.1 == i || rec.2.2 == (i : Int))
        if player_modified then bs.get_bullet_state_category i
        else if i ∈ bs.initial_live_positions then "live"
        else "blank")

/-- `get_initial_bullet_config()`. -/
def get_initial_bullet_config (g : QuantumBuckshotGame) : Nat × List Nat :=
  match g.bullet_system with
  | none => (g.num_bullets, [])
  | some bs => (g.num_bullets, bs.initial_live_positions)

end QuantumBuckshotGame

/-! ### Concrete runs used by counterexamples and witnesses -/

/-- A 2-bullet, 1-gate, 1-life game. -/
def demoGame0 : QuantumBuckshotGame := QuantumBuckshotGame.mkGame 2 1 1

/-- Round started with position 0 live (an admissible `random.sample` draw:
one live position out of two). -/
def demoGame1 : QuantumBuckshotGame := demoGame0.start_new_round [0]

def demoGame2 : QuantumBuckshotGame :=
  (demoGame1.submit_gate_selection 1 [GateType.X]).2

def demoGame3 : QuantumBuckshotGame :=
  (demoGame2.submit_gate_selection 2 [GateType.X]).2

def demoGame4 : QuantumBuckshotGame := demoGame3.start_playing_phase

/-- The chamber of `demoGame4`. -/
def demoSystem4 : QuantumBulletSystem :=
  (QuantumBulletSystem.mkSystem 2).initialize_bullets [0]

/-- `demoGame4` after player 1 shoots player 2 with the (Born-certain) live
bullet at position 0: player 2's lives drop from 1 to 0 and the game ends. -/
def demoGame5 : QuantumBuckshotGame := (demoGame4.shoot false 1).2

/-- 3 blank bullets, then `apply_gate(CNOT, 0, 1)`. -/
def cnotChain0 : QuantumBulletSystem :=
  (QuantumBulletSystem.mkSystem 3).initialize_bullets []

def cnotChain1 : QuantumBulletSystem := (cnotChain0.apply_gate .CNOT 0 1).2

/-! ### Claim theorems -/

/-- C1: the claim says a successful Controlled-X on targets A and B removes
any prior ledger entry held by either A or B (and its mirror at the old
partner), so that afterwards no third position's entry names A or B.  The
code breaks entanglement only at `target2`: after `CNOT(0,1)` then
`CNOT(0,2)` (both succeeding), position 0's old entry is merely overwritten
and the stale mirror entry `1 ↦ 0` survives, so third position 1 still names
A = 0 as its partner — contradicting both the claim and the ledger's own
"maps qubit -> its entangled partner" invariant. -/
theorem cnot_leaves_stale_partner_entry :
    (cnotChain0.apply_gate .CNOT 0 1).1 = true ∧
    dlookup 0 cnotChain1.entanglements = some 1 ∧
    dlookup 1 cnotChain1.entanglements = some 0 ∧
    (cnotChain1.apply_gate .CNOT 0 2).1 = true ∧
    dlookup 0 (cnotChain1.apply_gate .CNOT 0 2).2.entanglements = some 2 ∧
    dlookup 2 (cnotChain1.apply_gate .CNOT 0 2).2.entanglements = some 0 ∧
    dlookup 1 (cnotChain1.apply_gate .CNOT 0 2).2.entanglements = some 0 := by
  decide

/-- C2 counterexample: `demoGame5` is reached by actual play (the fired
bullet's live outcome has Born probability 1, per the `probBeq` conjunct) and
has `game_over = true` with the phase still `"playing"`; yet `use_peek` — a
mutating command — succeeds and spends the current player's peek token
instead of failing with a terminal-state violation. -/
theorem use_peek_after_game_over_counterexample :
    demoGame4.bullet_system = some demoSystem4 ∧
    probBeq (nthD demoSystem4.get_probabilities 0 (rt2Zero, rt2Zero))
      (rt2Zero, rt2One) = true ∧
    demoGame5.game_over = true ∧
    demoGame5.phase = "playing" ∧
    demoGame5.player1.peek_available = true ∧
    (demoGame5.use_peek).1.1 = true ∧
    (demoGame5.use_peek).2.player1.peek_available = false := by
  decide

/-- C2 amended: once game_over is true, apply_gate and shoot fail and leave
the game state unchanged; use_peek, however, checks only the phase and the
current player's peek token (never game_over), so its success is exactly
`phase = "playing" && peek_available`. -/
theorem game_over_blocks_apply_and_shoot (g : QuantumBuckshotGame)
    (gt : GateType) (t1 : Nat) (t2 : Int) (ss : Bool) (sample : Nat)
    (h : g.game_over = true) :
    (g.apply_gate gt t1 t2).1.1 = false ∧ (g.apply_gate gt t1 t2).2 = g ∧
    (g.shoot ss sample).1.success = false ∧ (g.shoot ss sample).2 = g ∧
    (g.use_peek).1.1 =
      ((g.phase == "playing") && (g.getPlayer g.current_player).peek_available) := by
  unfold QuantumBuckshotGame.apply_gate QuantumBuckshotGame.shoot
    QuantumBuckshotGame.use_peek
  by_cases hp : g.phase = "playing"
  · by_cases hb : (g.getPlayer g.current_player).peek_available
    · simp [hp, h, hb]
    · simp [hp, h, hb]
  · simp [hp, h, beq_iff_eq]

/-- C2 amended, witness at `demoGame5`. -/
theorem game_over_blocks_apply_and_shoot_witness :
    demoGame5.game_over = true ∧
    ((demoGame5.apply_gate GateType.X 0 (-1)).1.1 = false ∧
     (demoGame5.apply_gate GateType.X 0 (-1)).2 = demoGame5 ∧
     (demoGame5.shoot false 0).1.success = false ∧
     (demoGame5.shoot false 0).2 = demoGame5 ∧
     (demoGame5.use_peek).1.1 =
       ((demoGame5.phase == "playing") &&
        (demoGame5.getPlayer demoGame5.current_player).peek_available)) :=
  ⟨rfl, game_over_blocks_apply_and_shoot demoGame5 GateType.X 0 (-1) false 0 rfl⟩

/-- C7: submit_gate_selection succeeds exactly when the submitted list has
the configured number of gate kinds; any other length fails and returns the
whole state unchanged (phase, selection sub-player and both inventories
included). -/
theorem submit_gate_selection_length_gate (g : QuantumBuckshotGame)
    (pid : Nat) (kinds : List GateType) :
    (kinds.length ≠ g.num_gates →
      g.submit_gate_selection pid kinds = (false, g)) ∧
    (kinds.length = g.num_gates →
      (g.submit_gate_selection pid kinds).1 = true) := by
  constructor
  · intro h
    unfold QuantumBuckshotGame.submit_gate_selection
    simp [h]
  · intro h
    unfold QuantumBuckshotGame.submit_gate_selection
    by_cases hpid : pid = 1 <;> simp [h, hpid]

/-- C7 witness: with `num_gates = 1`, submitting 0 kinds fails unchanged and
submitting 1 kind succeeds. -/
theorem submit_gate_selection_length_gate_witness :
    (([] : List GateType).length ≠ demoGame1.num_gates ∧
      demoGame1.submit_gate_selection 1 [] = (false, demoGame1)) ∧
    ([GateType.X].length = demoGame1.num_gates ∧
      (demoGame1.submit_gate_selection 1 [GateType.X]).1 = true) :=
  ⟨⟨by decide, (submit_gate_selection_length_gate demoGame1 1 []).1 (by decide)⟩,
   ⟨rfl, (submit_gate_selection_length_gate demoGame1 1 [GateType.X]).2 rfl⟩⟩

/-- C9: submit_gate_selection validates nothing but the list length: in any
phase (playing and after game_over included) a correctly-sized list
succeeds, and any player_id other than 1 (0 and 3 included) assigns the
inventory to player 2 and moves the phase to show_bullets. -/
theorem submit_gate_selection_no_validation (g : QuantumBuckshotGame)
    (pid : Nat) (kinds : List GateType) (h : kinds.length = g.num_gates) :
    (g.submit_gate_selection pid kinds).1 = true ∧
    (pid ≠ 1 →
      (g.submit_gate_selection pid kinds).2.player2.gates =
        kinds.map (fun gt => { gate_type := gt, used := false }) ∧
      (g.submit_gate_selection pid kinds).2.phase = "show_bullets") := by
  unfold QuantumBuckshotGame.submit_gate_selection
  constructor
  · by_cases hpid : pid = 1 <;> simp [h, hpid]
  · intro hpid
    simp [h, hpid, Player.set_gates]

/-- C9 witness: at `demoGame5` (phase "playing", game over) a submission by
the invalid player id 3 succeeds, fills player 2's inventory and rewinds the
phase to show_bullets. -/
theorem submit_gate_selection_no_validation_witness :
    ([GateType.H].length = demoGame5.num_gates ∧ demoGame5.game_over = true ∧
      demoGame5.phase = "playing") ∧
    ((demoGame5.submit_gate_selection 3 [GateType.H]).1 = true ∧
     (3 ≠ 1 →
       (demoGame5.submit_gate_selection 3 [GateType.H]).2.player2.gates =
         [GateType.H].map (fun gt => { gate_type := gt, used := false }) ∧
       (demoGame5.submit_gate_selection 3 [GateType.H]).2.phase =
         "show_bullets")) :=
  ⟨⟨rfl, rfl, rfl⟩,
   submit_gate_selection_no_validation demoGame5 3 [GateType.H] rfl⟩

/-- C10: `initialize` stores the sorted input list (a permutation of the
input, sorted ascending, out-of-range members included) as the initial
live-position set; `get_initial_bullet_config` reports exactly that list,
while the prepared circuit flips only the in-range positions.  The two
closed conjuncts exhibit this with the out-of-range input `[5, 0]` on a
2-bullet chamber: the reported set is `[0, 5]` but only position 0 is
actually prepared live. -/
theorem initialize_stores_sorted_input (g : QuantumBuckshotGame)
    (live : List Nat) :
    (g.start_new_round live).bullet_system =
      some ((QuantumBulletSystem.mkSystem g.num_bullets).initialize_bullets live) ∧
    ((QuantumBulletSystem.mkSystem g.num_bullets).initialize_bullets live).initial_live_positions =
      QuantumBulletSystem.pySorted live ∧
    (∀ p, p ∈ QuantumBulletSystem.pySorted live ↔ p ∈ live) ∧
    (QuantumBulletSystem.pySorted live).Sorted (· ≤ ·) ∧
    ((QuantumBulletSystem.mkSystem g.num_bullets).initialize_bullets live).circuit =
      (live.filter (fun pos => decide (pos < g.num_bullets))).map CircuitOp.x ∧
    (g.start_new_round live).get_initial_bullet_config =
      (g.num_bullets, QuantumBulletSystem.pySorted live) ∧
    (demoGame0.start_new_round [5, 0]).get_initial_bullet_config = (2, [0, 5]) ∧
    ((QuantumBulletSystem.mkSystem 2).initialize_bullets [5, 0]).circuit =
      [CircuitOp.x 0] := by
  refine ⟨rfl, rfl, ?_, ?_, rfl, ?_, by decide, by decide⟩
  · intro p
    exact (List.perm_insertionSort (· ≤ ·) live).mem_iff
  · exact List.sorted_insertionSort (· ≤ ·) live
  · unfold QuantumBuckshotGame.start_new_round
      QuantumBuckshotGame.get_initial_bullet_config
    simp [QuantumBulletSystem.initialize_bullets]

/-- Two consecutive X records on the same position cancel in the simulated
statevector (X acts as the bit-flip permutation of basis indices). -/
theorem simulate_append_x_x (c : List CircuitOp) (p : Nat) :
    simulate (c ++ [.x p, .x p]) = simulate c := by
  funext i
  simp [simulate, List.foldl_append, applyOp, Nat.xor_assoc]

/-- C8: on an unmeasured in-range position, applying Pauli-X twice succeeds
and returns `probabilities()` to exactly its pre-application value (the
whole per-position list of `(P(blank), P(live))` pairs is unchanged). -/
theorem pauli_x_involutive_probabilities (s : QuantumBulletSystem) (p : Nat)
    (hp : p < s.num_bullets) (hm : nthD s.measured p false = false) :
    (s.apply_gate .X p (-1)).1 = true ∧
    ((s.apply_gate .X p (-1)).2.apply_gate .X p (-1)).1 = true ∧
    ((s.apply_gate .X p (-1)).2.apply_gate .X p (-1)).2.get_probabilities =
      s.get_probabilities := by
  have hnle : ¬ s.num_bullets ≤ p := Nat.not_le.mpr hp
  have hstep : s.apply_gate .X p (-1) =
      (true, { s with circuit := s.circuit ++ [.x p] }) := by
    unfold QuantumBulletSystem.apply_gate
    simp [GateType.is_two_qubit, hm, hnle]
  have hstep2 :
      ({ s with circuit := s.circuit ++ [.x p] } :
        QuantumBulletSystem).apply_gate .X p (-1) =
      (true, { s with circuit := (s.circuit ++ [.x p]) ++ [.x p] }) := by
    unfold QuantumBulletSystem.apply_gate
    simp [GateType.is_two_qubit, hm, hnle]
  refine ⟨by rw [hstep], by rw [hstep]; rw [hstep2], ?_⟩
  rw [hstep]
  show (({ s with circuit := s.circuit ++ [.x p] } :
    QuantumBulletSystem).apply_gate .X p (-1)).2.get_probabilities =
    s.get_probabilities
  rw [hstep2]
  show QuantumBulletSystem.get_probabilities
    { s with circuit := (s.circuit ++ [.x p]) ++ [.x p] } =
    s.get_probabilities
  unfold QuantumBulletSystem.get_probabilities
  simp [simulate_append_x_x]

/-- C8 witness at position 0 of a fresh 3-bullet chamber. -/
theorem pauli_x_involutive_probabilities_witness :
    (0 < cnotChain0.num_bullets ∧ nthD cnotChain0.measured 0 false = false) ∧
    ((cnotChain0.apply_gate .X 0 (-1)).1 = true ∧
     ((cnotChain0.apply_gate .X 0 (-1)).2.apply_gate .X 0 (-1)).1 = true ∧
     ((cnotChain0.apply_gate .X 0 (-1)).2.apply_gate .X 0 (-1)).2.get_probabilities =
       cnotChain0.get_probabilities) :=
  ⟨⟨by decide, rfl⟩, pauli_x_involutive_probabilities cnotChain0 0 (by decide) rfl⟩

/-- The queue-pointer invariant maintained across `fire_next` calls: the
measured list has one flag per bullet and the pointer is either exhausted or
parked on a not-yet-measured position. -/
def PointerInv (s : QuantumBulletSystem) : Prop :=
  s.measured.length = s.num_bullets ∧
  (s.num_bullets ≤ s.current_bullet_index ∨
   nthD s.measured s.current_bullet_index false = false)

instance (s : QuantumBulletSystem) : Decidable (PointerInv s) := by
  unfold PointerInv
  infer_instance

/-- Measuring an unmeasured position always marks it measured and moves the
pointer with the skip-measured loop, on every internal path (deferred cache
hit or fresh sample, with or without an entangled partner). -/
theorem measure_bullet_unmeasured (s : QuantumBulletSystem)
    (sample qubit : Nat) (h : nthD s.measured qubit false = false) :
    (s.measure_bullet sample qubit).2.measured = setNth s.measured qubit true ∧
    (s.measure_bullet sample qubit).2.current_bullet_index =
      advanceFrom (setNth s.measured qubit true) s.num_bullets
        (s.current_bullet_index + 1) ∧
    (s.measure_bullet sample qubit).2.num_bullets = s.num_bullets := by
  unfold QuantumBulletSystem.measure_bullet
  rw [h]
  cases hc : dlookup qubit s.collapsed_states with
  | some v => simp
  | none =>
    cases hpart : dlookup qubit s.entanglements with
    | some partner =>
      by_cases hmp : nthD (setNth s.measured qubit true) partner false = true <;>
        simp [hmp]
    | none => simp

theorem nthD_replicate_false (n i : Nat) :
    nthD (List.replicate n false) i false = false := by
  induction n generalizing i with
  | zero => rfl
  | succ m ih =>
    cases i with
    | zero => rfl
    | succ j => simpa [List.replicate_succ, nthD] using ih j

/-- C5: `fire_next` never fires a position twice.  `PointerInv` holds for
every freshly initialized chamber (first conjunct) and is preserved by each
call; under it: when the queue is exhausted the sentinel `(-1, -1)` is
returned with the state unchanged; otherwise the fired position is the
pointer's position, it was unmeasured before and is measured afterwards,
the pointer strictly advances past it skipping exactly already-measured
positions, and the invariant is preserved; measured flags are monotone, so
no position is ever measured twice across any sequence of calls. -/
theorem fire_next_strict_advance (s : QuantumBulletSystem) (sample : Nat)
    (hinv : PointerInv s) :
    (∀ n live,
       PointerInv ((QuantumBulletSystem.mkSystem n).initialize_bullets live)) ∧
    ((s.fire_next_bullet sample).1.1 = -1 →
       (s.fire_next_bullet sample).2 = s ∧
       (s.fire_next_bullet sample).1.2 = -1) ∧
    ((∀ q, q < s.num_bullets → nthD s.measured q false = true) →
       s.fire_next_bullet sample = ((-1, -1), s)) ∧
    ((s.fire_next_bullet sample).1.1 ≠ -1 →
       (s.fire_next_bullet sample).1.1 = Int.ofNat s.current_bullet_index ∧
       nthD s.measured s.current_bullet_index false = false ∧
       nthD (s.fire_next_bullet sample).2.measured
         s.current_bullet_index false = true ∧
       s.current_bullet_index <
         (s.fire_next_bullet sample).2.current_bullet_index ∧
       (∀ j, s.current_bullet_index < j →
          j < (s.fire_next_bullet sample).2.current_bullet_index →
          nthD (s.fire_next_bullet sample).2.measured j false = true) ∧
       PointerInv (s.fire_next_bullet sample).2) ∧
    (∀ q, nthD s.measured q false = true →
       nthD (s.fire_next_bullet sample).2.measured q false = true) := by
  have hinit : ∀ n live,
      PointerInv ((QuantumBulletSystem.mkSystem n).initialize_bullets live) := by
    intro n live
    constructor
    · simp [QuantumBulletSystem.initialize_bullets,
        QuantumBulletSystem.mkSystem]
    · right
      exact nthD_replicate_false n 0
  by_cases hq : s.num_bullets ≤ s.current_bullet_index
  · have hfire : s.fire_next_bullet sample = ((-1, -1), s) := by
      unfold QuantumBulletSystem.fire_next_bullet
      simp [hq]
    rw [hfire]
    exact ⟨hinit, fun _ => ⟨rfl, rfl⟩, fun _ => rfl, fun hne => absurd rfl hne,
      fun q hq2 => hq2⟩
  · have hidx : s.current_bullet_index < s.num_bullets := by omega
    have hm : nthD s.measured s.current_bullet_index false = false := by
      rcases hinv.2 with h | h
      · omega
      · exact h
    have hfire : s.fire_next_bullet sample =
        ((Int.ofNat s.current_bullet_index,
          Int.ofNat (s.measure_bullet sample s.current_bullet_index).1),
         (s.measure_bullet sample s.current_bullet_index).2) := by
      unfold QuantumBulletSystem.fire_next_bullet
      simp [hq]
    obtain ⟨hmeas, hptr, hnb⟩ :=
      measure_bullet_unmeasured s sample s.current_bullet_index hm
    rw [hfire]
    refine ⟨hinit, ?_, ?_, ?_, ?_⟩
    · intro habs
      simp only [Int.ofNat_eq_natCast] at habs
      omega
    · intro hall
      have := hall _ hidx
      rw [hm] at this
      cases this
    · intro _
      refine ⟨rfl, hm, ?_, ?_, ?_, ?_, ?_⟩
      · rw [hmeas]
        exact nthD_setNth_self _ _ _ _ (by rw [hinv.1]; exact hidx)
      · rw [hptr]
        have := advanceFrom_ge (setNth s.measured s.current_bullet_index true)
          s.num_bullets (s.current_bullet_index + 1)
        omega
      · intro j h1 h2
        rw [hmeas]
        rw [hptr] at h2
        exact advanceFrom_skipped _ _ _ j (by omega) h2
      · rw [hmeas, hnb, length_setNth]
        exact hinv.1
      · rw [hptr, hmeas, hnb]
        exact advanceFrom_stops _ _ _
    · intro q hqm
      rw [hmeas]
      by_cases hqe : q = s.current_bullet_index
      · rw [hqe, hm] at hqm
        cases hqm
      · rw [nthD_setNth_ne _ _ _ _ _ (fun hh => hqe hh.symm)]
        exact hqm

/-- C5 witness at the fresh 3-bullet chamber (pointer 0, all unmeasured). -/
theorem fire_next_strict_advance_witness :
    PointerInv cnotChain0 ∧
    ((∀ n live, PointerInv
       ((QuantumBulletSystem.mkSystem n).initialize_bullets live)) ∧
     ((cnotChain0.fire_next_bullet 0).1.1 = -1 →
       (cnotChain0.fire_next_bullet 0).2 = cnotChain0 ∧
       (cnotChain0.fire_next_bullet 0).1.2 = -1) ∧
     ((∀ q, q < cnotChain0.num_bullets →
         nthD cnotChain0.measured q false = true) →
       cnotChain0.fire_next_bullet 0 = ((-1, -1), cnotChain0)) ∧
     ((cnotChain0.fire_next_bullet 0).1.1 ≠ -1 →
       (cnotChain0.fire_next_bullet 0).1.1 =
         Int.ofNat cnotChain0.current_bullet_index ∧
       nthD cnotChain0.measured cnotChain0.current_bullet_index false = false ∧
       nthD (cnotChain0.fire_next_bullet 0).2.measured
         cnotChain0.current_bullet_index false = true ∧
       cnotChain0.current_bullet_index <
         (cnotChain0.fire_next_bullet 0).2.current_bullet_index ∧
       (∀ j, cnotChain0.current_bullet_index < j →
          j < (cnotChain0.fire_next_bullet 0).2.current_bullet_index →
          nthD (cnotChain0.fire_next_bullet 0).2.measured j false = true) ∧
       PointerInv (cnotChain0.fire_next_bullet 0).2) ∧
     (∀ q, nthD cnotChain0.measured q false = true →
        nthD (cnotChain0.fire_next_bullet 0).2.measured q false = true)) :=
  ⟨by decide, fire_next_strict_advance cnotChain0 0 (by decide)⟩

/-- C4: resolution of a successful shoot in the playing phase.  The target
is the shooter on a self-shot, else the opponent.  A live outcome deals
damage; if the target's lives reach 0 the game is over with the winner being
the other player, otherwise the turn passes to the opponent with the
turn-gate-flag cleared.  A blank self-shot keeps the current player (extra
turn) with the flag cleared; a blank shot at the opponent switches the
current player. -/
theorem shoot_outcome_resolution (g : QuantumBuckshotGame)
    (bs : QuantumBulletSystem) (ss : Bool) (sample : Nat)
    (hp : g.phase = "playing") (hgo : g.game_over = false)
    (hbs : g.bullet_system = some bs)
    (hq : bs.current_bullet_index < bs.num_bullets) :
    (g.shoot ss sample).1.success = true ∧
    (g.shoot ss sample).1.shot_self = ss ∧
    (g.shoot ss sample).1.target_id =
      (if ss then g.current_player else QuantumBuckshotGame.oppId g.current_player) ∧
    ((g.shoot ss sample).1.is_live = true →
      (g.shoot ss sample).1.damage_dealt = true ∧
      ((g.shoot ss sample).2.getPlayer
          (if ss then g.current_player else QuantumBuckshotGame.oppId g.current_player)).lives =
        (g.getPlayer
          (if ss then g.current_player else QuantumBuckshotGame.oppId g.current_player)).lives - 1 ∧
      (((g.shoot ss sample).2.getPlayer
          (if ss then g.current_player else QuantumBuckshotGame.oppId g.current_player)).lives = 0 →
        (g.shoot ss sample).2.game_over = true ∧
        (g.shoot ss sample).2.winner = some (QuantumBuckshotGame.oppId
          (if ss then g.current_player else QuantumBuckshotGame.oppId g.current_player)) ∧
        (g.shoot ss sample).1.game_over = true) ∧
      (((g.shoot ss sample).2.getPlayer
          (if ss then g.current_player else QuantumBuckshotGame.oppId g.current_player)).lives ≠ 0 →
        (g.shoot ss sample).2.current_player =
          QuantumBuckshotGame.oppId g.current_player ∧
        (g.shoot ss sample).2.gate_applied_this_turn = false ∧
        (g.shoot ss sample).2.game_over = false)) ∧
    ((g.shoot ss sample).1.is_live = false → ss = true →
      (g.shoot ss sample).1.extra_turn = true ∧
      (g.shoot ss sample).2.current_player = g.current_player ∧
      (g.shoot ss sample).2.gate_applied_this_turn = false) ∧
    ((g.shoot ss sample).1.is_live = false → ss = false →
      (g.shoot ss sample).2.current_player =
        QuantumBuckshotGame.oppId g.current_player ∧
      (g.shoot ss sample).2.gate_applied_this_turn = false) := by
  have hfire : bs.fire_next_bullet sample =
      ((Int.ofNat bs.current_bullet_index,
        Int.ofNat (bs.measure_bullet sample bs.current_bullet_index).1),
       (bs.measure_bullet sample bs.current_bullet_index).2) := by
    unfold QuantumBulletSystem.fire_next_bullet
    simp [Nat.not_le.mpr hq]
  have hnneg : ¬ ((bs.current_bullet_index : Int) < 0) := by
    omega
  unfold QuantumBuckshotGame.shoot
  rw [hbs]
  by_cases hlive :
      (((bs.measure_bullet sample bs.current_bullet_index).1 : Int) == 1) = true
  · by_cases htid : (if ss then g.current_player else
        QuantumBuckshotGame.oppId g.current_player) = 1 <;>
      simp [hp, hgo, hfire, hnneg, hlive, htid, Player.take_damage,
        Player.is_alive, QuantumBuckshotGame.getPlayer,
        QuantumBuckshotGame.setPlayer, Int.ofNat_eq_natCast] <;>
      split_ifs <;>
      simp_all <;>
      omega
  · have hlive2 : (((bs.measure_bullet sample
        bs.current_bullet_index).1 : Int) == 1) = false := by
      simpa using hlive
    cases ss <;>
      simp [hp, hgo, hfire, hnneg, hlive2, QuantumBuckshotGame.getPlayer,
        QuantumBuckshotGame.setPlayer, Int.ofNat_eq_natCast]

/-- C4 witness: player 1 shoots player 2 in `demoGame4` with the live bullet. -/
theorem shoot_outcome_resolution_witness :
    (demoGame4.phase = "playing" ∧ demoGame4.game_over = false ∧
     demoGame4.bullet_system = some demoSystem4 ∧
     demoSystem4.current_bullet_index < demoSystem4.num_bullets) ∧
    ((demoGame4.shoot false 1).1.success = true ∧
     (demoGame4.shoot false 1).1.shot_self = false ∧
     (demoGame4.shoot false 1).1.target_id =
       (if false then demoGame4.current_player
        else QuantumBuckshotGame.oppId demoGame4.current_player) ∧
     ((demoGame4.shoot false 1).1.is_live = true →
       (demoGame4.shoot false 1).1.damage_dealt = true ∧
       ((demoGame4.shoot false 1).2.getPlayer
           (if false then demoGame4.current_player
            else QuantumBuckshotGame.oppId demoGame4.current_player)).lives =
         (demoGame4.getPlayer
           (if false then demoGame4.current_player
            else QuantumBuckshotGame.oppId demoGame4.current_player)).lives - 1 ∧
       (((demoGame4.shoot false 1).2.getPlayer
           (if false then demoGame4.current_player
            else QuantumBuckshotGame.oppId demoGame4.current_player)).lives = 0 →
         (demoGame4.shoot false 1).2.game_over = true ∧
         (demoGame4.shoot false 1).2.winner = some (QuantumBuckshotGame.oppId
           (if false then demoGame4.current_player
            else QuantumBuckshotGame.oppId demoGame4.current_player)) ∧
         (demoGame4.shoot false 1).1.game_over = true) ∧
       (((demoGame4.shoot false 1).2.getPlayer
           (if false then demoGame4.current_player
            else QuantumBuckshotGame.oppId demoGame4.current_player)).lives ≠ 0 →
         (demoGame4.shoot false 1).2.current_player =
           QuantumBuckshotGame.oppId demoGame4.current_player ∧
         (demoGame4.shoot false 1).2.gate_applied_this_turn = false ∧
         (demoGame4.shoot false 1).2.game_over = false)) ∧
     ((demoGame4.shoot false 1).1.is_live = false → false = true →
       (demoGame4.shoot false 1).1.extra_turn = true ∧
       (demoGame4.shoot false 1).2.current_player = demoGame4.current_player ∧
       (demoGame4.shoot false 1).2.gate_applied_this_turn = false) ∧
     ((demoGame4.shoot false 1).1.is_live = false → false = false →
       (demoGame4.shoot false 1).2.current_player =
         QuantumBuckshotGame.oppId demoGame4.current_player ∧
       (demoGame4.shoot false 1).2.gate_applied_this_turn = false)) :=
  ⟨⟨rfl, rfl, rfl, by decide⟩,
   shoot_outcome_resolution demoGame4 demoSystem4 false 1 rfl rfl rfl (by decide)⟩

/-- C6: what a requesting player sees at position p: a measured position
shows its true outcome category; an unmeasured position the player touched
with one of their own gates this round shows the engine's current
classification; any other unmeasured position shows its original loaded
label — membership in the stored initial live-position set — whatever the
opponent has done meanwhile (the reported value in that branch depends only
on the initial set). -/
theorem visible_bullet_states_spec (g : QuantumBuckshotGame)
    (bs : QuantumBulletSystem) (pid p : Nat)
    (hbs : g.bullet_system = some bs) (hp : p < g.num_bullets) :
    (g.get_visible_bullet_states pid)[p]? = some (
      if nthD bs.measured p false then
        if (nthD bs.measurement_results p none).getD 0 == 1 then "fired_live"
        else "fired_blank"
      else if (if pid = 1 then g.player1 else g.player2).applied_gates_history.any
          (fun rec => rec.2.1 == p || rec.2.2 == (p : Int)) then
        bs.get_bullet_state_category p
      else if p ∈ bs.initial_live_positions then "live"
      else "blank") := by
  unfold QuantumBuckshotGame.get_visible_bullet_states
  rw [hbs]
  rw [List.getElem?_map, List.getElem?_range hp]
  simp

/-- C6 witness: player 1 views position 0 of `demoGame4`. -/
theorem visible_bullet_states_spec_witness :
    (demoGame4.bullet_system = some demoSystem4 ∧ 0 < demoGame4.num_bullets) ∧
    (demoGame4.get_visible_bullet_states 1)[0]? = some (
      if nthD demoSystem4.measured 0 false then
        if (nthD demoSystem4.measurement_results 0 none).getD 0 == 1 then
          "fired_live"
        else "fired_blank"
      else if (if 1 = 1 then demoGame4.player1 else
          demoGame4.player2).applied_gates_history.any
          (fun rec => rec.2.1 == 0 || rec.2.2 == ((0 : Nat) : Int)) then
        demoSystem4.get_bullet_state_category 0
      else if 0 ∈ demoSystem4.initial_live_positions then "live"
      else "blank") :=
  ⟨⟨rfl, by decide⟩,
   visible_bullet_states_spec demoGame4 demoSystem4 1 0 rfl (by decide)⟩

/-- The guards implied by a successful CNOT application. -/
theorem apply_gate_cnot_guards (s : QuantumBulletSystem) (A : Nat) (B : Int)
    (h : (s.apply_gate .CNOT A B).1 = true) :
    A < s.num_bullets ∧ nthD s.measured A false = false ∧ 0 ≤ B ∧
    B < (s.num_bullets : Int) ∧ nthD s.measured B.toNat false = false ∧
    (A : Int) ≠ B := by
  unfold QuantumBulletSystem.apply_gate at h
  split at h
  · cases h
  split at h
  · cases h
  split at h
  · cases h
  split at h
  · cases h
  split at h
  · cases h
  rename_i hg1 hg2 hg3 hg4 hg5
  simp [GateType.is_two_qubit] at hg2 hg3 hg4 hg5
  exact ⟨by omega, hg2, by omega, by omega, hg4, by
    intro hab
    exact hg5 (by simpa using hab)⟩

/-- The state produced by a successful CNOT application. -/
theorem apply_gate_cnot_eq (s : QuantumBulletSystem) (A : Nat) (B : Int)
    (h1 : A < s.num_bullets) (h2 : nthD s.measured A false = false)
    (h3 : 0 ≤ B) (h4 : B < (s.num_bullets : Int))
    (h5 : nthD s.measured B.toNat false = false) (h6 : (A : Int) ≠ B) :
    s.apply_gate .CNOT A B = (true, { s with
      circuit := s.circuit ++ [.cx A B.toNat],
      entanglements := dinsert B.toNat A (dinsert A B.toNat
        (QuantumBulletSystem.break_entanglement B.toNat s.entanglements)) }) := by
  have hA : ¬ s.num_bullets ≤ A := by omega
  have hB0 : ¬ B < 0 := by omega
  have hBn : ¬ (s.num_bullets : Int) ≤ B := by omega
  have hbeq : (((A : Nat) : Int) == B) = false := by
    simpa using h6
  unfold QuantumBulletSystem.apply_gate
  simp [hA, h2, h5, GateType.is_two_qubit, hB0, hBn, hbeq]

/-- C3 amended: after a successful Controlled-X on (A, B), *provided A holds
no deferred-collapse cache entry*, measuring A takes the fresh-sampling
path: it returns the sampled outcome v, caches v as B's deferred outcome,
removes both ledger entries, and a subsequent measure of B (whatever its own
fresh sample argument would have been) consumes the cache and returns
exactly v.  (When A itself holds a deferred-collapse entry, measuring A
consumes that cache without propagating anything to B and the ledger entry
survives — see the counterexample.) -/
theorem cnot_then_measure_propagates (s : QuantumBulletSystem) (A : Nat)
    (B : Int) (sample sample2 : Nat)
    (hs : (s.apply_gate .CNOT A B).1 = true)
    (hc : dlookup A s.collapsed_states = none) :
    ((s.apply_gate .CNOT A B).2.measure_bullet sample A).1 = sample ∧
    dlookup B.toNat
      ((s.apply_gate .CNOT A B).2.measure_bullet sample A).2.collapsed_states =
      some sample ∧
    dlookup A
      ((s.apply_gate .CNOT A B).2.measure_bullet sample A).2.entanglements =
      none ∧
    dlookup B.toNat
      ((s.apply_gate .CNOT A B).2.measure_bullet sample A).2.entanglements =
      none ∧
    (((s.apply_gate .CNOT A B).2.measure_bullet sample A).2.measure_bullet
      sample2 B.toNat).1 = sample ∧
    dlookup B.toNat
      (((s.apply_gate .CNOT A B).2.measure_bullet sample A).2.measure_bullet
        sample2 B.toNat).2.collapsed_states = none := by
  obtain ⟨h1, h2, h3, h4, h5, h6⟩ := apply_gate_cnot_guards s A B hs
  have hAB : A ≠ B.toNat := by omega
  have hBA : B.toNat ≠ A := by omega
  rw [apply_gate_cnot_eq s A B h1 h2 h3 h4 h5 h6]
  set E0 := QuantumBulletSystem.break_entanglement B.toNat s.entanglements
    with hE0
  have hlookA : dlookup A (dinsert B.toNat A (dinsert A B.toNat E0)) =
      some B.toNat := by
    rw [dlookup_dinsert_ne _ _ _ _ hAB, dlookup_dinsert_self]
  have hlookB : dlookup B.toNat (dinsert B.toNat A (dinsert A B.toNat E0)) =
      some A := dlookup_dinsert_self _ _ _
  have hmB : nthD (setNth s.measured A true) B.toNat false = false := by
    rw [nthD_setNth_ne _ _ _ _ _ hAB]
    exact h5
  have hbreak : QuantumBulletSystem.break_entanglement A
      (dinsert B.toNat A (dinsert A B.toNat E0)) =
      dremove B.toNat (dremove A (dinsert B.toNat A (dinsert A B.toNat E0))) := by
    unfold QuantumBulletSystem.break_entanglement
    rw [hlookA]
    have hlb : dlookup B.toNat
        (dremove A (dinsert B.toNat A (dinsert A B.toNat E0))) = some A := by
      rw [dlookup_dremove_ne _ _ _ hBA, hlookB]
    simp [hlb, hE0]
  have hmeq : (({ s with
      circuit := s.circuit ++ [.cx A B.toNat],
      entanglements := dinsert B.toNat A (dinsert A B.toNat E0) } :
      QuantumBulletSystem).measure_bullet sample A) = (sample, { s with
        circuit := s.circuit ++ [.cx A B.toNat],
        entanglements := QuantumBulletSystem.break_entanglement A
          (dinsert B.toNat A (dinsert A B.toNat E0)),
        measured := setNth s.measured A true,
        measurement_results := setNth s.measurement_results A (some sample),
        collapsed_states := dinsert B.toNat sample s.collapsed_states,
        current_bullet_index := advanceFrom (setNth s.measured A true)
          s.num_bullets (s.current_bullet_index + 1) }) := by
    unfold QuantumBulletSystem.measure_bullet
    simp [h2, hc, hlookA, hmB]
  rw [hmeq]
  have hmeq2 : (({ s with
      circuit := s.circuit ++ [.cx A B.toNat],
      entanglements := QuantumBulletSystem.break_entanglement A
        (dinsert B.toNat A (dinsert A B.toNat E0)),
      measured := setNth s.measured A true,
      measurement_results := setNth s.measurement_results A (some sample),
      collapsed_states := dinsert B.toNat sample s.collapsed_states,
      current_bullet_index := advanceFrom (setNth s.measured A true)
        s.num_bullets (s.current_bullet_index + 1) } :
      QuantumBulletSystem).measure_bullet sample2 B.toNat) = (sample, { s with
        circuit := s.circuit ++ [.cx A B.toNat],
        entanglements := QuantumBulletSystem.break_entanglement A
          (dinsert B.toNat A (dinsert A B.toNat E0)),
        measured := setNth (setNth s.measured A true) B.toNat true,
        measurement_results := setNth (setNth s.measurement_results A
          (some sample)) B.toNat (some sample),
        collapsed_states := dremove B.toNat
          (dinsert B.toNat sample s.collapsed_states),
        current_bullet_index := advanceFrom
          (setNth (setNth s.measured A true) B.toNat true) s.num_bullets
          (advanceFrom (setNth s.measured A true) s.num_bullets
            (s.current_bullet_index + 1) + 1) }) := by
    unfold QuantumBulletSystem.measure_bullet
    simp [hmB, dlookup_dinsert_self]
  refine ⟨rfl, ?_, ?_, ?_, ?_, ?_⟩
  · simp [dlookup_dinsert_self]
  · show dlookup A (QuantumBulletSystem.break_entanglement A
      (dinsert B.toNat A (dinsert A B.toNat E0))) = none
    rw [hbreak, dlookup_dremove_ne _ _ _ hAB, dlookup_dremove_self]
  · show dlookup B.toNat (QuantumBulletSystem.break_entanglement A
      (dinsert B.toNat A (dinsert A B.toNat E0))) = none
    rw [hbreak, dlookup_dremove_self]
  · rw [hmeq2]
  · rw [hmeq2]
    show dlookup B.toNat
      (dremove B.toNat (dinsert B.toNat sample s.collapsed_states)) = none
    exact dlookup_dremove_self _ _

/-! ### C3 counterexample run -/

/-- 4 bullets, positions 2 and 3 live. -/
def deferChain0 : QuantumBulletSystem :=
  (QuantumBulletSystem.mkSystem 4).initialize_bullets [2, 3]

/-- After `apply_gate(CNOT, 2, 1)`: positions 2 and 1 entangled. -/
def deferChain1 : QuantumBulletSystem := (deferChain0.apply_gate .CNOT 2 1).2

/-- After `measure(2)` (Born-certain outcome 1): position 1 now holds the
deferred-collapse cache entry `1 ↦ 1` and the ledger is empty. -/
def deferChain2 : QuantumBulletSystem := (deferChain1.measure_bullet 1 2).2

/-- After `apply_gate(CNOT, 1, 3)`: positions 1 and 3 entangled while 1
still holds its stale cache entry. -/
def deferChain3 : QuantumBulletSystem := (deferChain2.apply_gate .CNOT 1 3).2

/-- `measure(1)` (the fresh-sample argument 0 is irrelevant: the cache path
is taken). -/
def deferChain4 : Nat × QuantumBulletSystem := deferChain3.measure_bullet 0 1

/-- C3 counterexample: positions A = 1 and B = 3 are unmeasured and were
just entangled by a successful `CNOT(1, 3)`, but A holds a deferred-collapse
cache entry from an earlier round of entanglement.  Measuring A returns
v = 1 through its own cache, caches *nothing* for B, and leaves the ledger
entry in place; the subsequent measure of B falls back to fresh Born
sampling and returns 0 ≠ v — and 0 is the only Born-admissible outcome
there (its marginal probability is exactly 1, per the `probBeq` conjuncts,
which also certify the sample used at the earlier `measure(2)`). -/
theorem deferred_cache_measure_no_propagation_counterexample :
    probBeq (nthD deferChain1.get_probabilities 2 (rt2Zero, rt2Zero))
      (rt2Zero, rt2One) = true ∧
    (deferChain2.apply_gate .CNOT 1 3).1 = true ∧
    nthD deferChain2.measured 1 false = false ∧
    nthD deferChain2.measured 3 false = false ∧
    dlookup 1 deferChain3.entanglements = some 3 ∧
    dlookup 3 deferChain3.entanglements = some 1 ∧
    dlookup 1 deferChain3.collapsed_states = some 1 ∧
    deferChain4.1 = 1 ∧
    dlookup 3 deferChain4.2.collapsed_states = none ∧
    dlookup 1 deferChain4.2.entanglements = some 3 ∧
    (deferChain4.2.measure_bullet 0 3).1 = 0 ∧
    probBeq (nthD deferChain4.2.get_probabilities 3 (rt2Zero, rt2Zero))
      (rt2One, rt2Zero) = true := by
  decide

/-- C3 amended, witness: fresh 4-bullet chamber, `CNOT(0, 1)` then
`measure(0)` with sample 1, then `measure(1)`. -/
theorem cnot_then_measure_propagates_witness :
    ((deferChain0.apply_gate .CNOT 0 1).1 = true ∧
      dlookup 0 deferChain0.collapsed_states = none) ∧
    (((deferChain0.apply_gate .CNOT 0 1).2.measure_bullet 1 0).1 = 1 ∧
     dlookup (1 : Int).toNat
       ((deferChain0.apply_gate .CNOT 0 1).2.measure_bullet 1 0).2.collapsed_states =
       some 1 ∧
     dlookup 0
       ((deferChain0.apply_gate .CNOT 0 1).2.measure_bullet 1 0).2.entanglements =
       none ∧
     dlookup (1 : Int).toNat
       ((deferChain0.apply_gate .CNOT 0 1).2.measure_bullet 1 0).2.entanglements =
       none ∧
     (((deferChain0.apply_gate .CNOT 0 1).2.measure_bullet 1 0).2.measure_bullet
       0 (1 : Int).toNat).1 = 1 ∧
     dlookup (1 : Int).toNat
       (((deferChain0.apply_gate .CNOT 0 1).2.measure_bullet 1 0).2.measure_bullet
         0 (1 : Int).toNat).2.collapsed_states = none) :=
  ⟨⟨rfl, rfl⟩, cnot_then_measure_propagates deferChain0 0 1 1 0 rfl rfl⟩

end QuantumRoulette